import Mathlib

/-!
Shallow embedding of the organizer onboarding & authentication workflow of the
auth-service (`src/controllers/authController.js`, route wiring, and the
spec-described approval operation).

Conventions of the embedding:
* A JS request field that is absent or the empty string is modelled as `""`
  (both are falsy under the controller's `!field` presence checks).
* The PostgreSQL pool is modelled by a `List Organizer` plus an `Env` that
  injects the possible failures of the external calls (a throwing SELECT,
  a throwing INSERT such as a unique-constraint violation, a throwing
  e-mail send): any such throw lands in the controller's catch-all, which
  answers 500 with the error detail.
* bcrypt and jsonwebtoken are external collaborators, modelled as records of
  pure functions passed to the operations.
-/

namespace AuthService

/-- A stored row of the `Organizer` table. -/
structure Organizer where
  organizer_ID : Nat
  organizer_name : String
  fname : String
  lname : String
  email : String
  contact_no : Option String
  password_hash : String
  status : String
deriving Repr, DecidableEq

/-- The row shape produced by the INSERT's RETURNING clause:
`organizer_ID, organizer_name, fname, lname, email AS username, contact_no, status`.
It has no `password_hash` column and surfaces the email as `username`. -/
structure OrganizerView where
  organizer_ID : Nat
  organizer_name : String
  fname : String
  lname : String
  username : String
  contact_no : Option String
  status : String
deriving Repr, DecidableEq

/-- Projection of a stored organizer to the RETURNING row. -/
def toView (o : Organizer) : OrganizerView :=
  { organizer_ID := o.organizer_ID
    organizer_name := o.organizer_name
    fname := o.fname
    lname := o.lname
    username := o.email
    contact_no := o.contact_no
    status := o.status }

/-- The string values carried by a returned organizer view (its non-numeric
columns), used to state that the password hash appears nowhere in it. -/
def viewStrings (v : OrganizerView) : List String :=
  [v.organizer_name, v.fname, v.lname, v.username, v.status] ++
    (match v.contact_no with
     | some c => [c]
     | none => [])

/-- Body of a registration request; `""` stands for an absent field. -/
structure RegisterRequest where
  fname : String
  lname : String
  email : String
  contact_no : String
  password : String
deriving Repr, DecidableEq

/-- Body of a login request; `""` stands for an absent field. -/
structure LoginRequest where
  email : String
  password : String
deriving Repr, DecidableEq

/-- The bcrypt collaborator: `hash(plaintext, cost)` and
`compare(plaintext, digest)`. -/
structure Bcrypt where
  hash : String → Nat → String
  compare : String → String → Bool

/-- The jsonwebtoken collaborator: `sign` of the payload `{id, username}`
with a secret and an `expiresIn` lifetime. -/
structure Jwt where
  sign : Nat → String → String → String → String

/-- Ambient environment of the controller: configuration read from
`process.env`, the identifier the database will assign to the next insert,
and injected failures of the external calls (`none` = the call succeeds;
`some d` = the call throws with message `d`). -/
structure Env where
  adminEmail : Option String
  baseUrl : Option String
  jwtSecret : String
  nextId : Nat
  selectFails : Option String
  insertFails : Option String
  emailFails : Option String

/-- An admin-approval e-mail dispatched by `sendApprovalEmail`
(`toAddr` embeds the JS mail option `to`, a Lean keyword). -/
structure AdminMail where
  toAddr : String
  organizer_name : String
  email : String
  link : String
deriving Repr, DecidableEq

/-- JSON body and status answered by `register`. -/
structure RegisterResponse where
  status : Nat
  message : String
  error : Option String := none
  organizer : Option OrganizerView := none
deriving Repr, DecidableEq

/-- Result of a `register` call: the HTTP response, the table after the call,
and the observable side effects (mails sent, `console.warn` and
`console.error` lines). -/
structure RegisterResult where
  resp : RegisterResponse
  db : List Organizer
  adminMails : List AdminMail
  warnings : List String
  errorLogs : List String
deriving Repr, DecidableEq

/-- The record the INSERT stores for a fresh registration. -/
def newOrganizer (env : Env) (bcrypt : Bcrypt) (req : RegisterRequest) : Organizer :=
  { organizer_ID := env.nextId
    organizer_name := req.fname ++ " " ++ req.lname
    fname := req.fname
    lname := req.lname
    email := req.email
    contact_no := if req.contact_no = "" then none else some req.contact_no
    password_hash := bcrypt.hash req.password 10
    status := "pending" }

/-- The approval deep link `${BASE_URL}/auths/approve/${organizer_id}`
(an unset BASE_URL interpolates as the string "undefined"). -/
def approvalLink (env : Env) : String :=
  (env.baseUrl.getD "undefined") ++ "/auths/approve/" ++ toString env.nextId

/-- Embedding of `register` from `src/controllers/authController.js`. -/
def register (env : Env) (bcrypt : Bcrypt) (db : List Organizer)
    (req : RegisterRequest) : RegisterResult :=
  if req.fname = "" ∨ req.lname = "" ∨ req.email = "" ∨ req.password = "" then
    { resp := { status := 400
                message := "fname, lname, Email (username) and Password are required" }
      db := db, adminMails := [], warnings := [], errorLogs := [] }
  else
    match env.selectFails with
    | some d =>
        { resp := { status := 500, message := "Internal server error", error := some d }
          db := db, adminMails := [], warnings := [], errorLogs := [d] }
    | none =>
      if (db.filter (fun o => o.email == req.email)).length > 0 then
        { resp := { status := 400, message := "Email (username) already registered" }
          db := db, adminMails := [], warnings := [], errorLogs := [] }
      else
        match env.insertFails with
        | some d =>
            { resp := { status := 500, message := "Internal server error", error := some d }
              db := db, adminMails := [], warnings := [], errorLogs := [d] }
        | none =>
          let inserted := newOrganizer env bcrypt req
          let db' := db ++ [inserted]
          let view := toView inserted
          if (env.adminEmail.getD "") ≠ "" then
            match env.emailFails with
            | some d =>
                { resp := { status := 500, message := "Internal server error", error := some d }
                  db := db', adminMails := [], warnings := [], errorLogs := [d] }
            | none =>
                { resp := { status := 201
                            message := "Registration request sent for admin approval."
                            organizer := some view }
                  db := db'
                  adminMails := [{ toAddr := env.adminEmail.getD ""
                                   organizer_name := inserted.organizer_name
                                   email := req.email
                                   link := approvalLink env }]
                  warnings := [], errorLogs := [] }
          else
            { resp := { status := 201
                        message := "Registration request sent for admin approval."
                        organizer := some view }
              db := db', adminMails := []
              warnings := ["ADMIN_NOTIFY_EMAIL not set in .env"], errorLogs := [] }

/-- JSON body and status answered by `login`. -/
structure LoginResponse where
  status : Nat
  message : String
  error : Option String := none
  token : Option String := none
deriving Repr, DecidableEq

/-- Result of a `login` call: the HTTP response and the `console.error`
lines (login never mutates the table). -/
structure LoginResult where
  resp : LoginResponse
  errorLogs : List String
deriving Repr, DecidableEq

/-- Embedding of `login` from `src/controllers/authController.js`. -/
def login (env : Env) (bcrypt : Bcrypt) (jwt : Jwt) (db : List Organizer)
    (req : LoginRequest) : LoginResult :=
  if req.email = "" ∨ req.password = "" then
    { resp := { status := 400, message := "Email (username) and Password are required" }
      errorLogs := [] }
  else
    match env.selectFails with
    | some d =>
        { resp := { status := 500, message := "Internal server error", error := some d }
          errorLogs := [d] }
    | none =>
      match db.filter (fun o => o.email == req.email) with
      | [] =>
          { resp := { status := 401, message := "Invalid email (username) or password" }
            errorLogs := [] }
      | user :: _ =>
        if user.status ≠ "approved" then
          { resp := { status := 403, message := "Account not approved by admin yet." }
            errorLogs := [] }
        else if ¬ bcrypt.compare req.password user.password_hash then
          { resp := { status := 401, message := "Invalid email (username) or password" }
            errorLogs := [] }
        else
          { resp := { status := 200, message := "Login successful"
                      token := some (jwt.sign user.organizer_ID user.email env.jwtSecret "1h") }
            errorLogs := [] }

/-- JSON body and status answered by the approval operation. -/
structure ApproveResponse where
  status : Nat
  message : String
deriving Repr, DecidableEq

/-- Result of an approval call: the response, the table after the call, and
the display names for which an organizer-approved notification was sent. -/
structure ApproveResult where
  resp : ApproveResponse
  db : List Organizer
  organizerMails : List String
deriving Repr, DecidableEq

/-- The status update the approval operation persists. -/
def approveUpd (organizerId : Nat) (o : Organizer) : Organizer :=
  if o.organizer_ID = organizerId then { o with status := "approved" } else o

/-- Modelled from the spec: no source file under `src/` implements
`approveOrganizer` (the tests import it from `src/utils/approveOrganizer`
and the router references it, but only `register` and `login` exist in the
controller). Per spec §4.1: fail with `NotFoundError` if no record with the
identifier exists; fail with `ConflictError` ("already approved") if the
record is already `approved`; otherwise transition the record to `approved`,
persist the change, notify the organizer, and return the updated record.
HTTP codes 404/400/200 follow the repository's unit tests of the operation. -/
def approveOrganizer (db : List Organizer) (organizerId : Nat) : ApproveResult :=
  match db.find? (fun o => o.organizer_ID == organizerId) with
  | none =>
      { resp := { status := 404, message := "Organizer not found" }
        db := db, organizerMails := [] }
  | some u =>
    if u.status = "approved" then
      { resp := { status := 400, message := "already approved" }
        db := db, organizerMails := [] }
    else
      { resp := { status := 200, message := "Organizer approved successfully" }
        db := db.map (approveUpd organizerId)
        organizerMails := [u.organizer_name] }

/-- The table after `n` successive approval attempts for the same identifier. -/
def approveAttempts : Nat → List Organizer → Nat → List Organizer
  | 0, db, _ => db
  | n + 1, db, organizerId =>
      (approveOrganizer (approveAttempts n db organizerId) organizerId).db

/-- The names exported by `src/controllers/authController.js`
(`module.exports = \x7b register, login \x7d`). -/
def authControllerExports : List String := ["register", "login"]

/-- The names exported by the e-mail utility module under `src/utils/`. -/
def emailUtilExports : List String := ["sendApprovalEmail"]

/-- Every function name defined and exported by a module under `src/` of the
auth service. -/
def srcExportedFunctions : List String :=
  authControllerExports ++ emailUtilExports

/-- The route table of the auth router: method, path, and the name of the
handler it destructures from the auth controller's exports. -/
def authRoutes : List (String × String × String) :=
  [("post", "/register", "register"),
   ("post", "/login", "login"),
   ("get", "/approve/:organizerId", "approveOrganizer")]

/-- Resolving a handler name against the controller's export object:
a missing key destructures to `undefined`, i.e. `none`. -/
def resolveHandler (name : String) : Option String :=
  if name ∈ authControllerExports then some name else none

/-- The handler bound to `GET /approve/:organizerId`. -/
def approveRouteHandler : Option String := resolveHandler "approveOrganizer"

/-! Concrete collaborators and fixtures used by the witness theorems. -/

/-- A concrete bcrypt collaborator whose digests are tagged strings. -/
def bcryptX : Bcrypt :=
  { hash := fun s _ => "$2b$10$" ++ s
    compare := fun s d => d == "$2b$10$" ++ s }

/-- A concrete bcrypt collaborator that rejects every password. -/
def bcryptNever : Bcrypt :=
  { hash := fun s _ => "$2b$10$" ++ s
    compare := fun _ _ => false }

/-- A concrete token signer. -/
def jwtX : Jwt :=
  { sign := fun id username secret ttl =>
      "jwt." ++ toString id ++ "." ++ username ++ "." ++ secret ++ "." ++ ttl }

/-- A concrete environment with full configuration and no injected failures. -/
def envX : Env :=
  { adminEmail := some "admin@mail.com"
    baseUrl := some "http://localhost:3000"
    jwtSecret := "secret"
    nextId := 1
    selectFails := none
    insertFails := none
    emailFails := none }

/-- A stored approved organizer whose password is "pass" under `bcryptX`. -/
def orgApproved : Organizer :=
  { organizer_ID := 1
    organizer_name := "John Doe"
    fname := "John"
    lname := "Doe"
    email := "approved@mail.com"
    contact_no := none
    password_hash := "$2b$10$pass"
    status := "approved" }

/-- A stored pending organizer whose password is "pass" under `bcryptX`. -/
def orgPending : Organizer :=
  { organizer_ID := 2
    organizer_name := "Jane Doe"
    fname := "Jane"
    lname := "Doe"
    email := "pending@mail.com"
    contact_no := none
    password_hash := "$2b$10$pass"
    status := "pending" }

/-- A fresh, well-formed registration request. -/
def reqNew : RegisterRequest :=
  { fname := "John", lname := "Doe", email := "new@mail.com"
    contact_no := "", password := "pass" }

/-- The detail text of a storage-level duplicate-email rejection. -/
def dupDetail : String :=
  "duplicate key value violates unique constraint organizer_email_key"

/-- `envX` with the INSERT throwing a duplicate-email conflict (the losing
writer of two racing registrations). -/
def envDup : Env := { envX with insertFails := some dupDetail }

/-- `envX` with the SELECT throwing an infrastructure error. -/
def envFail : Env := { envX with selectFails := some "connection refused" }

/-- `envX` with no admin notification address configured. -/
def envNoAdmin : Env := { envX with adminEmail := none }

/-! Theorems settling the claims. -/

/-- Claim C10: the auth router binds `GET /approve/:organizerId` to the name
`approveOrganizer`, but the auth controller exports only `register` and
`login`, and no module under `src/` exports an `approveOrganizer` function,
so the handler bound to the approval route is `undefined` (`none`) while the
register and login routes resolve to real handlers. -/
theorem approve_route_handler_undefined_C10 :
    approveRouteHandler = none ∧
    ("get", "/approve/:organizerId", "approveOrganizer") ∈ authRoutes ∧
    resolveHandler "register" = some "register" ∧
    resolveHandler "login" = some "login" ∧
    srcExportedFunctions = ["register", "login", "sendApprovalEmail"] ∧
    ¬ "approveOrganizer" ∈ srcExportedFunctions := by
  refine ⟨by decide, by decide, by decide, by decide, by decide, by decide⟩

/-- Claim C1: a login request with supplied (non-empty) email and password
whose email matches a stored record with status different from "approved" is
answered 403 "Account not approved by admin yet.", and the outcome is the
same for every bcrypt collaborator — password verification is never consulted,
so the response is the same for every supplied password, correct or not. -/
theorem login_unapproved_gates_before_password_C1
    (env : Env) (b1 b2 : Bcrypt) (jwt : Jwt) (db : List Organizer)
    (req : LoginRequest) (user : Organizer) (rest : List Organizer)
    (he : req.email ≠ "") (hp : req.password ≠ "")
    (hsel : env.selectFails = none)
    (hfound : db.filter (fun o => o.email == req.email) = user :: rest)
    (hstatus : user.status ≠ "approved") :
    (login env b1 jwt db req).resp =
      { status := 403, message := "Account not approved by admin yet." } ∧
    login env b1 jwt db req = login env b2 jwt db req := by
  have key : ∀ b : Bcrypt, login env b jwt db req =
      { resp := { status := 403, message := "Account not approved by admin yet." }
        errorLogs := [] } := by
    intro b
    unfold login
    rw [if_neg (by simp [he, hp]), hsel]
    simp only [hfound]
    rw [if_pos hstatus]
  exact ⟨by rw [key b1], by rw [key b1, key b2]⟩

/-- Witness for C1 at a concrete pending record, with two bcrypt
collaborators that disagree on every password. -/
theorem login_unapproved_gates_before_password_C1_witness :
    (login envX bcryptX jwtX [orgPending] { email := "pending@mail.com", password := "pass" }).resp =
      { status := 403, message := "Account not approved by admin yet." } ∧
    login envX bcryptX jwtX [orgPending] { email := "pending@mail.com", password := "pass" } =
      login envX bcryptNever jwtX [orgPending] { email := "pending@mail.com", password := "pass" } :=
  login_unapproved_gates_before_password_C1 envX bcryptX bcryptNever jwtX [orgPending]
    { email := "pending@mail.com", password := "pass" } orgPending []
    (by decide) (by decide) rfl (by decide) (by decide)

/-- Claim C5: a login with an email matching no stored record and a login
with an email matching an approved record but a password that fails hash
verification are answered with identical responses: both HTTP 401 with the
message "Invalid email (username) or password", so the response does not
reveal which part of the credential was wrong. -/
theorem login_error_indistinguishable_C5
    (env : Env) (bcrypt : Bcrypt) (jwt : Jwt) (db : List Organizer)
    (req1 req2 : LoginRequest) (user : Organizer) (rest : List Organizer)
    (he1 : req1.email ≠ "") (hp1 : req1.password ≠ "")
    (he2 : req2.email ≠ "") (hp2 : req2.password ≠ "")
    (hsel : env.selectFails = none)
    (hnone : db.filter (fun o => o.email == req1.email) = [])
    (hfound : db.filter (fun o => o.email == req2.email) = user :: rest)
    (happroved : user.status = "approved")
    (hbad : bcrypt.compare req2.password user.password_hash = false) :
    (login env bcrypt jwt db req1).resp =
      { status := 401, message := "Invalid email (username) or password" } ∧
    (login env bcrypt jwt db req2).resp =
      { status := 401, message := "Invalid email (username) or password" } ∧
    login env bcrypt jwt db req1 = login env bcrypt jwt db req2 := by
  have k1 : login env bcrypt jwt db req1 =
      { resp := { status := 401, message := "Invalid email (username) or password" }
        errorLogs := [] } := by
    unfold login
    rw [if_neg (by simp [he1, hp1]), hsel]
    simp only [hnone]
  have k2 : login env bcrypt jwt db req2 =
      { resp := { status := 401, message := "Invalid email (username) or password" }
        errorLogs := [] } := by
    unfold login
    rw [if_neg (by simp [he2, hp2]), hsel]
    simp only [hfound]
    rw [if_neg (by simp [happroved]), if_pos (by simp [hbad])]
  exact ⟨by rw [k1], by rw [k2], by rw [k1, k2]⟩

/-- Witness for C5: unknown email versus approved record with wrong password,
over a concrete one-record table. -/
theorem login_error_indistinguishable_C5_witness :
    (login envX bcryptX jwtX [orgApproved] { email := "no@mail.com", password := "pass" }).resp =
      { status := 401, message := "Invalid email (username) or password" } ∧
    (login envX bcryptX jwtX [orgApproved] { email := "approved@mail.com", password := "wrong" }).resp =
      { status := 401, message := "Invalid email (username) or password" } ∧
    login envX bcryptX jwtX [orgApproved] { email := "no@mail.com", password := "pass" } =
      login envX bcryptX jwtX [orgApproved] { email := "approved@mail.com", password := "wrong" } :=
  login_error_indistinguishable_C5 envX bcryptX jwtX [orgApproved]
    { email := "no@mail.com", password := "pass" }
    { email := "approved@mail.com", password := "wrong" } orgApproved []
    (by decide) (by decide) (by decide) (by decide) rfl
    (by decide) (by decide) (by decide) (by decide)

/-- Claim C6: a login whose email matches a stored approved record and whose
password verifies against the stored hash is answered HTTP 200 with message
"Login successful" and a non-empty signed token carrying the organizer's
identifier and email, issued with the bounded lifetime "1h". -/
theorem login_success_token_C6
    (env : Env) (bcrypt : Bcrypt) (jwt : Jwt) (db : List Organizer)
    (req : LoginRequest) (user : Organizer) (rest : List Organizer)
    (he : req.email ≠ "") (hp : req.password ≠ "")
    (hsel : env.selectFails = none)
    (hfound : db.filter (fun o => o.email == req.email) = user :: rest)
    (happroved : user.status = "approved")
    (hok : bcrypt.compare req.password user.password_hash = true)
    (hsigned : jwt.sign user.organizer_ID user.email env.jwtSecret "1h" ≠ "") :
    (login env bcrypt jwt db req).resp =
      { status := 200, message := "Login successful"
        token := some (jwt.sign user.organizer_ID user.email env.jwtSecret "1h") } ∧
    jwt.sign user.organizer_ID user.email env.jwtSecret "1h" ≠ "" := by
  refine ⟨?_, hsigned⟩
  unfold login
  rw [if_neg (by simp [he, hp]), hsel]
  simp only [hfound]
  rw [if_neg (by simp [happroved]), if_neg (by simp [hok])]

/-- Witness for C6 at a concrete approved record and matching password. -/
theorem login_success_token_C6_witness :
    (login envX bcryptX jwtX [orgApproved] { email := "approved@mail.com", password := "pass" }).resp =
      { status := 200, message := "Login successful"
        token := some (jwtX.sign orgApproved.organizer_ID orgApproved.email envX.jwtSecret "1h") } ∧
    jwtX.sign orgApproved.organizer_ID orgApproved.email envX.jwtSecret "1h" ≠ "" :=
  login_success_token_C6 envX bcryptX jwtX [orgApproved]
    { email := "approved@mail.com", password := "pass" } orgApproved []
    (by decide) (by decide) rfl (by decide) (by decide) (by decide) (by decide)

/-- Claim C2: a registration request (with its required fields supplied)
whose email equals the email of some existing organizer record, in any
status, is answered 400 "Email (username) already registered" and the stored
set of organizers is unchanged — no new record is inserted and no admin
mail is sent. -/
theorem register_duplicate_email_conflict_C2
    (env : Env) (bcrypt : Bcrypt) (db : List Organizer) (req : RegisterRequest)
    (user : Organizer)
    (hf : req.fname ≠ "") (hl : req.lname ≠ "") (he : req.email ≠ "")
    (hp : req.password ≠ "")
    (hsel : env.selectFails = none)
    (hmem : user ∈ db) (hemail : user.email = req.email) :
    (register env bcrypt db req).resp =
      { status := 400, message := "Email (username) already registered" } ∧
    (register env bcrypt db req).db = db ∧
    (register env bcrypt db req).adminMails = [] := by
  have hne : db.filter (fun o => o.email == req.email) ≠ [] :=
    List.ne_nil_of_mem (List.mem_filter.mpr ⟨hmem, by simp [hemail]⟩)
  obtain ⟨x, xs, hfe⟩ := List.exists_cons_of_ne_nil hne
  unfold register
  rw [if_neg (by simp [hf, hl, he, hp]), hsel]
  simp only [hfe, List.length_cons]
  rw [if_pos (by omega)]
  exact ⟨rfl, rfl, rfl⟩

/-- Witness for C2: re-registering the email of the stored pending record. -/
theorem register_duplicate_email_conflict_C2_witness :
    (register envX bcryptX [orgPending]
        { fname := "Jane", lname := "Doe", email := "pending@mail.com"
          contact_no := "", password := "other" }).resp =
      { status := 400, message := "Email (username) already registered" } ∧
    (register envX bcryptX [orgPending]
        { fname := "Jane", lname := "Doe", email := "pending@mail.com"
          contact_no := "", password := "other" }).db = [orgPending] ∧
    (register envX bcryptX [orgPending]
        { fname := "Jane", lname := "Doe", email := "pending@mail.com"
          contact_no := "", password := "other" }).adminMails = [] :=
  register_duplicate_email_conflict_C2 envX bcryptX [orgPending]
    { fname := "Jane", lname := "Doe", email := "pending@mail.com"
      contact_no := "", password := "other" } orgPending
    (by decide) (by decide) (by decide) (by decide) rfl (by decide) (by decide)

/-- Claim C3: a registration with non-empty fname, lname, email and password
and a previously-unused email succeeds with HTTP 201 and appends exactly one
record: its status is "pending", its display name is "fname lname", its
stored credential is the bcrypt hash of the password at cost 10 (and differs
from the plaintext whenever the hash does), and the returned view surfaces
the email as `username` and carries the password hash in none of its
fields whenever the digest differs from the profile fields. -/
theorem register_success_C3
    (env : Env) (bcrypt : Bcrypt) (db : List Organizer) (req : RegisterRequest)
    (hf : req.fname ≠ "") (hl : req.lname ≠ "") (he : req.email ≠ "")
    (hp : req.password ≠ "")
    (hfree : db.filter (fun o => o.email == req.email) = [])
    (hsel : env.selectFails = none) (hins : env.insertFails = none)
    (hmail : env.adminEmail.getD "" = "" ∨ env.emailFails = none) :
    (register env bcrypt db req).resp.status = 201 ∧
    (register env bcrypt db req).db = db ++ [newOrganizer env bcrypt req] ∧
    (register env bcrypt db req).resp.organizer =
      some (toView (newOrganizer env bcrypt req)) ∧
    (newOrganizer env bcrypt req).status = "pending" ∧
    (newOrganizer env bcrypt req).organizer_name = req.fname ++ " " ++ req.lname ∧
    (newOrganizer env bcrypt req).password_hash = bcrypt.hash req.password 10 ∧
    (toView (newOrganizer env bcrypt req)).username = req.email ∧
    (bcrypt.hash req.password 10 ≠ req.password →
      (newOrganizer env bcrypt req).password_hash ≠ req.password) ∧
    (bcrypt.hash req.password 10 ∉
        [req.fname ++ " " ++ req.lname, req.fname, req.lname, req.email,
          req.contact_no, "pending"] →
      bcrypt.hash req.password 10 ∉
        viewStrings (toView (newOrganizer env bcrypt req))) := by
  have hstep : (register env bcrypt db req).resp.status = 201 ∧
      (register env bcrypt db req).db = db ++ [newOrganizer env bcrypt req] ∧
      (register env bcrypt db req).resp.organizer =
        some (toView (newOrganizer env bcrypt req)) := by
    unfold register
    rw [if_neg (by simp [hf, hl, he, hp]), hsel]
    simp only [hfree, List.length_nil, hins]
    rw [if_neg (by omega)]
    rcases hmail with hadmin | hmailok
    · rw [if_neg (by simp [hadmin])]
      exact ⟨rfl, rfl, rfl⟩
    · by_cases hadmin : env.adminEmail.getD "" = ""
      · rw [if_neg (by simp [hadmin])]
        exact ⟨rfl, rfl, rfl⟩
      · rw [if_pos hadmin, hmailok]
        exact ⟨rfl, rfl, rfl⟩
  refine ⟨hstep.1, hstep.2.1, hstep.2.2, rfl, rfl, rfl, rfl, fun hone => hone, ?_⟩
  intro hdisj hmemv
  apply hdisj
  unfold viewStrings toView newOrganizer at hmemv
  by_cases hc : req.contact_no = ""
  · simp [hc] at hmemv
    rcases hmemv with h | h | h | h | h <;> simp [h]
  · simp [hc] at hmemv
    rcases hmemv with h | h | h | h | h | h <;> simp [h]

/-- Witness for C3: registering `reqNew` against an empty table. -/
theorem register_success_C3_witness :
    (register envX bcryptX [] reqNew).resp.status = 201 ∧
    (register envX bcryptX [] reqNew).db = [] ++ [newOrganizer envX bcryptX reqNew] ∧
    (register envX bcryptX [] reqNew).resp.organizer =
      some (toView (newOrganizer envX bcryptX reqNew)) ∧
    (newOrganizer envX bcryptX reqNew).status = "pending" ∧
    (newOrganizer envX bcryptX reqNew).organizer_name =
      reqNew.fname ++ " " ++ reqNew.lname ∧
    (newOrganizer envX bcryptX reqNew).password_hash =
      bcryptX.hash reqNew.password 10 ∧
    (toView (newOrganizer envX bcryptX reqNew)).username = reqNew.email ∧
    (bcryptX.hash reqNew.password 10 ≠ reqNew.password →
      (newOrganizer envX bcryptX reqNew).password_hash ≠ reqNew.password) ∧
    (bcryptX.hash reqNew.password 10 ∉
        [reqNew.fname ++ " " ++ reqNew.lname, reqNew.fname, reqNew.lname,
          reqNew.email, reqNew.contact_no, "pending"] →
      bcryptX.hash reqNew.password 10 ∉
        viewStrings (toView (newOrganizer envX bcryptX reqNew))) :=
  register_success_C3 envX bcryptX [] reqNew
    (by decide) (by decide) (by decide) (by decide) (by decide) rfl rfl
    (Or.inr rfl)

/-- Claim C7: with no admin notification address configured, a valid fresh
registration still succeeds with 201 and the created record, no admin mail
is dispatched, and the warning "ADMIN_NOTIFY_EMAIL not set in .env" is
recorded. -/
theorem register_no_admin_email_C7
    (env : Env) (bcrypt : Bcrypt) (db : List Organizer) (req : RegisterRequest)
    (hf : req.fname ≠ "") (hl : req.lname ≠ "") (he : req.email ≠ "")
    (hp : req.password ≠ "")
    (hfree : db.filter (fun o => o.email == req.email) = [])
    (hsel : env.selectFails = none) (hins : env.insertFails = none)
    (hadmin : env.adminEmail.getD "" = "") :
    (register env bcrypt db req).resp.status = 201 ∧
    (register env bcrypt db req).resp.organizer =
      some (toView (newOrganizer env bcrypt req)) ∧
    (register env bcrypt db req).db = db ++ [newOrganizer env bcrypt req] ∧
    (register env bcrypt db req).adminMails = [] ∧
    (register env bcrypt db req).warnings = ["ADMIN_NOTIFY_EMAIL not set in .env"] := by
  unfold register
  rw [if_neg (by simp [hf, hl, he, hp]), hsel]
  simp only [hfree, List.length_nil, hins]
  rw [if_neg (by omega), if_neg (by simp [hadmin])]
  exact ⟨rfl, rfl, rfl, rfl, rfl⟩

/-- Witness for C7: registering `reqNew` with no admin address configured. -/
theorem register_no_admin_email_C7_witness :
    (register envNoAdmin bcryptX [] reqNew).resp.status = 201 ∧
    (register envNoAdmin bcryptX [] reqNew).resp.organizer =
      some (toView (newOrganizer envNoAdmin bcryptX reqNew)) ∧
    (register envNoAdmin bcryptX [] reqNew).db =
      [] ++ [newOrganizer envNoAdmin bcryptX reqNew] ∧
    (register envNoAdmin bcryptX [] reqNew).adminMails = [] ∧
    (register envNoAdmin bcryptX [] reqNew).warnings =
      ["ADMIN_NOTIFY_EMAIL not set in .env"] :=
  register_no_admin_email_C7 envNoAdmin bcryptX [] reqNew
    (by decide) (by decide) (by decide) (by decide) (by decide) rfl rfl rfl

/-- Counterexample to C8: when the INSERT itself rejects the registration
with a duplicate-email conflict signal (the losing writer of a race), the
controller's catch-all answers the InternalError response 500 "Internal
server error" — not the ConflictError response 400 "Email (username)
already registered". -/
theorem register_insert_conflict_counterexample_C8 :
    (register envDup bcryptX [] reqNew).resp.status = 500 ∧
    (register envDup bcryptX [] reqNew).resp.message = "Internal server error" ∧
    (register envDup bcryptX [] reqNew).resp.status ≠ 400 ∧
    (register envDup bcryptX [] reqNew).resp.message ≠
      "Email (username) already registered" := by
  refine ⟨rfl, rfl, by decide, by decide⟩

/-- Amended C8: a persistence-level duplicate-email rejection of the INSERT
is mapped by `register` to the generic InternalError response (HTTP 500,
message "Internal server error", the conflict detail surfaced in the `error`
field and logged), not to the ConflictError response; only duplicates seen
by the pre-insert SELECT produce "Email (username) already registered". -/
theorem register_insert_conflict_is_internal_C8
    (env : Env) (bcrypt : Bcrypt) (db : List Organizer) (req : RegisterRequest)
    (d : String)
    (hf : req.fname ≠ "") (hl : req.lname ≠ "") (he : req.email ≠ "")
    (hp : req.password ≠ "")
    (hfree : db.filter (fun o => o.email == req.email) = [])
    (hsel : env.selectFails = none)
    (hins : env.insertFails = some d) :
    (register env bcrypt db req).resp =
      { status := 500, message := "Internal server error", error := some d } ∧
    (register env bcrypt db req).resp.message ≠
      "Email (username) already registered" ∧
    (register env bcrypt db req).db = db ∧
    (register env bcrypt db req).errorLogs = [d] := by
  have key : register env bcrypt db req =
      { resp := { status := 500, message := "Internal server error", error := some d }
        db := db, adminMails := [], warnings := [], errorLogs := [d] } := by
    unfold register
    rw [if_neg (by simp [hf, hl, he, hp]), hsel]
    simp only [hfree, List.length_nil, hins]
    rw [if_neg (by omega)]
  refine ⟨by rw [key],
    by rw [key]
       show "Internal server error" ≠ "Email (username) already registered"
       decide,
    by rw [key], by rw [key]⟩

/-- Witness for the amended C8 at a concrete racing insert. -/
theorem register_insert_conflict_is_internal_C8_witness :
    (register envDup bcryptX [] reqNew).resp =
      { status := 500, message := "Internal server error", error := some dupDetail } ∧
    (register envDup bcryptX [] reqNew).resp.message ≠
      "Email (username) already registered" ∧
    (register envDup bcryptX [] reqNew).db = [] ∧
    (register envDup bcryptX [] reqNew).errorLogs = [dupDetail] :=
  register_insert_conflict_is_internal_C8 envDup bcryptX [] reqNew dupDetail
    (by decide) (by decide) (by decide) (by decide) (by decide) rfl rfl

/-- Counterexample to C9: an infrastructure failure of the SELECT during
login produces a response that carries the underlying error's detail text
in its `error` field — the caller does not receive only a generic message. -/
theorem internal_error_detail_counterexample_C9 :
    (login envFail bcryptX jwtX []
        { email := "a@mail.com", password := "p" }).resp.error =
      some "connection refused" ∧
    (login envFail bcryptX jwtX []
        { email := "a@mail.com", password := "p" }).resp.error ≠ none := by
  refine ⟨rfl, by decide⟩

/-- Amended C9: on an internal persistence error, `register` and `login`
both answer HTTP 500 whose `message` field is the generic "Internal server
error", but the underlying error's detail text is included in the
response's `error` field as well as logged server-side. -/
theorem internal_error_generic_message_and_detail_C9
    (env : Env) (bcrypt : Bcrypt) (jwt : Jwt) (db : List Organizer)
    (reqR : RegisterRequest) (reqL : LoginRequest) (d : String)
    (hf : reqR.fname ≠ "") (hl : reqR.lname ≠ "") (heR : reqR.email ≠ "")
    (hpR : reqR.password ≠ "")
    (heL : reqL.email ≠ "") (hpL : reqL.password ≠ "")
    (hsel : env.selectFails = some d) :
    (register env bcrypt db reqR).resp =
      { status := 500, message := "Internal server error", error := some d } ∧
    (register env bcrypt db reqR).errorLogs = [d] ∧
    (login env bcrypt jwt db reqL).resp =
      { status := 500, message := "Internal server error", error := some d } ∧
    (login env bcrypt jwt db reqL).errorLogs = [d] := by
  have kr : register env bcrypt db reqR =
      { resp := { status := 500, message := "Internal server error", error := some d }
        db := db, adminMails := [], warnings := [], errorLogs := [d] } := by
    unfold register
    rw [if_neg (by simp [hf, hl, heR, hpR]), hsel]
  have kl : login env bcrypt jwt db reqL =
      { resp := { status := 500, message := "Internal server error", error := some d }
        errorLogs := [d] } := by
    unfold login
    rw [if_neg (by simp [heL, hpL]), hsel]
  exact ⟨by rw [kr], by rw [kr], by rw [kl], by rw [kl]⟩

/-- Witness for the amended C9 at a concrete failing SELECT. -/
theorem internal_error_generic_message_and_detail_C9_witness :
    (register envFail bcryptX [] reqNew).resp =
      { status := 500, message := "Internal server error"
        error := some "connection refused" } ∧
    (register envFail bcryptX [] reqNew).errorLogs = ["connection refused"] ∧
    (login envFail bcryptX jwtX [] { email := "a@mail.com", password := "p" }).resp =
      { status := 500, message := "Internal server error"
        error := some "connection refused" } ∧
    (login envFail bcryptX jwtX [] { email := "a@mail.com", password := "p" }).errorLogs =
      ["connection refused"] :=
  internal_error_generic_message_and_detail_C9 envFail bcryptX jwtX [] reqNew
    { email := "a@mail.com", password := "p" } "connection refused"
    (by decide) (by decide) (by decide) (by decide) (by decide) (by decide) rfl

/-- The persisted status update preserves identifiers. -/
theorem approveUpd_ID (organizerId : Nat) (o : Organizer) :
    (approveUpd organizerId o).organizer_ID = o.organizer_ID := by
  unfold approveUpd
  split <;> rfl

/-- Searching by identifier commutes with the status update. -/
theorem find?_map_approveUpd (organizerId : Nat) (db : List Organizer) :
    (db.map (approveUpd organizerId)).find? (fun o => o.organizer_ID == organizerId) =
      (db.find? (fun o => o.organizer_ID == organizerId)).map (approveUpd organizerId) := by
  induction db with
  | nil => rfl
  | cons x xs ih =>
    cases hb : (x.organizer_ID == organizerId) <;>
      simp [List.find?, approveUpd_ID, hb, ih]

/-- An approval attempt against an already-approved record answers the
conflict and leaves the table unchanged. -/
theorem approve_on_approved (db : List Organizer) (organizerId : Nat)
    (u : Organizer)
    (hfind : db.find? (fun o => o.organizer_ID == organizerId) = some u)
    (happ : u.status = "approved") :
    approveOrganizer db organizerId =
      { resp := { status := 400, message := "already approved" }
        db := db, organizerMails := [] } := by
  unfold approveOrganizer
  simp only [hfind]
  rw [if_pos happ]

/-- An approval attempt against a pending record succeeds, persists the
status update, and notifies the organizer. -/
theorem approve_on_pending (db : List Organizer) (organizerId : Nat)
    (u : Organizer)
    (hfind : db.find? (fun o => o.organizer_ID == organizerId) = some u)
    (hpend : u.status = "pending") :
    approveOrganizer db organizerId =
      { resp := { status := 200, message := "Organizer approved successfully" }
        db := db.map (approveUpd organizerId)
        organizerMails := [u.organizer_name] } := by
  unfold approveOrganizer
  simp only [hfind]
  rw [if_neg (by rw [hpend]; decide)]

/-- After the persisted update, the record is found with status approved. -/
theorem find?_after_approve (db : List Organizer) (organizerId : Nat)
    (u : Organizer)
    (hfind : db.find? (fun o => o.organizer_ID == organizerId) = some u) :
    (db.map (approveUpd organizerId)).find? (fun o => o.organizer_ID == organizerId) =
      some { u with status := "approved" } := by
  rw [find?_map_approveUpd, hfind]
  have hid : u.organizer_ID = organizerId := by
    have hpred := List.find?_some hfind
    simpa using hpred
  simp only [Option.map_some']
  unfold approveUpd
  rw [if_pos hid]

/-- From the first successful approval on, the table stays fixed at the
updated state, whatever the number of further attempts. -/
theorem approveAttempts_stable (db : List Organizer) (organizerId : Nat)
    (u : Organizer)
    (hfind : db.find? (fun o => o.organizer_ID == organizerId) = some u)
    (hpend : u.status = "pending") :
    ∀ m, approveAttempts (m + 1) db organizerId = db.map (approveUpd organizerId) := by
  intro m
  induction m with
  | zero =>
    show (approveOrganizer (approveAttempts 0 db organizerId) organizerId).db = _
    rw [show approveAttempts 0 db organizerId = db from rfl,
      approve_on_pending db organizerId u hfind hpend]
  | succ k ih =>
    show (approveOrganizer (approveAttempts (k + 1) db organizerId) organizerId).db = _
    rw [ih, approve_on_approved _ organizerId { u with status := "approved" }
      (find?_after_approve db organizerId u hfind) rfl]

/-- Claim C4: approval is not idempotent. The first approval of a pending
record answers 200 and persists status "approved"; for every n ≥ 1, after n
approval attempts the record's status is still "approved" and the next
(n+1-st) attempt answers the conflict "already approved" while leaving the
table unchanged. (`approveOrganizer` is modelled from the spec: its
implementation is absent from `src/`.) -/
theorem approveOrganizer_not_idempotent_C4
    (db : List Organizer) (organizerId : Nat) (u : Organizer) (n : Nat)
    (hfind : db.find? (fun o => o.organizer_ID == organizerId) = some u)
    (hpend : u.status = "pending") (hn : 1 ≤ n) :
    (approveOrganizer db organizerId).resp =
      { status := 200, message := "Organizer approved successfully" } ∧
    (approveAttempts n db organizerId).find? (fun o => o.organizer_ID == organizerId) =
      some { u with status := "approved" } ∧
    (approveOrganizer (approveAttempts n db organizerId) organizerId).resp =
      { status := 400, message := "already approved" } ∧
    (approveOrganizer (approveAttempts n db organizerId) organizerId).db =
      approveAttempts n db organizerId := by
  obtain ⟨m, rfl⟩ : ∃ m, n = m + 1 := ⟨n - 1, by omega⟩
  have hstable := approveAttempts_stable db organizerId u hfind hpend m
  have hfound := find?_after_approve db organizerId u hfind
  have hconf := approve_on_approved (db.map (approveUpd organizerId)) organizerId
    { u with status := "approved" } hfound rfl
  refine ⟨?_, ?_, ?_, ?_⟩
  · rw [approve_on_pending db organizerId u hfind hpend]
  · rw [hstable, hfound]
  · rw [hstable, hconf]
  · rw [hstable, hconf]

/-- Witness for C4: three approval attempts on the stored pending record. -/
theorem approveOrganizer_not_idempotent_C4_witness :
    (approveOrganizer [orgPending] 2).resp =
      { status := 200, message := "Organizer approved successfully" } ∧
    (approveAttempts 3 [orgPending] 2).find? (fun o => o.organizer_ID == 2) =
      some { orgPending with status := "approved" } ∧
    (approveOrganizer (approveAttempts 3 [orgPending] 2) 2).resp =
      { status := 400, message := "already approved" } ∧
    (approveOrganizer (approveAttempts 3 [orgPending] 2) 2).db =
      approveAttempts 3 [orgPending] 2 :=
  approveOrganizer_not_idempotent_C4 [orgPending] 2 orgPending 3
    (by decide) (by decide) (by decide)

end AuthService
